import Mathlib

/-!
Shallow embedding of `src/server/utils/sqlite.ts` (the `MessageManager` class
of the Telegram-Channel-Parser repository) and proofs about its retry policy,
validation layer and CRUD operations.

Modelling conventions:
* JS numbers that the code validates with `Number.isInteger` are modelled as
  `Int` (the integrality check is then always true and the remaining bounds
  checks are kept verbatim).
* The SQLite `messages` table is a list of rows together with the next rowid;
  `SELECT` without `ORDER BY` returns storage order, `LIMIT 1` takes the first
  match.  Thrown errors happen before the transaction or roll it back, so every
  error path returns the state unchanged, exactly as the code does.
* The `retryCount : Map<string, number>` is an association list with JS `Map`
  semantics (`get` defaulting to 0 via `|| 0`, `set` replacing in place,
  `delete` removing the entry).
* An asynchronous operation handed to `retry` is modelled by the list of
  outcomes its successive attempts would produce.
-/

namespace Sqlite

/-- `MAX_CONTENT_LENGTH = 1000000` from the source. -/
def MAX_CONTENT_LENGTH : Nat := 1000000

/-- `MAX_RETRIES = 3` from the source. -/
def MAX_RETRIES : Nat := 3

/-- `Number.MAX_SAFE_INTEGER = 2^53 - 1`. -/
def MAX_SAFE_INTEGER : Int := 9007199254740991

/-- `containsSub needle l` decides whether `needle` occurs as a contiguous
sublist of `l`. -/
def containsSub (needle : List Char) : List Char → Bool
  | [] => needle.isEmpty
  | c :: cs => needle.isPrefixOf (c :: cs) || containsSub needle cs

/-- JS `haystack.includes(needle)`: substring containment. -/
def jsIncludes (haystack needle : String) : Bool :=
  containsSub needle.data haystack.data

/-- The ECMAScript white-space and line-terminator set used by
`String.prototype.trim`. -/
def jsIsWhitespace (c : Char) : Bool :=
  c == ' ' || c == '\t' || c == '\n' || c == '\r' ||
  c.toNat == 0x0B || c.toNat == 0x0C ||
  c.toNat == 0x00A0 || c.toNat == 0xFEFF || c.toNat == 0x1680 ||
  (0x2000 <= c.toNat && c.toNat <= 0x200A) ||
  c.toNat == 0x2028 || c.toNat == 0x2029 || c.toNat == 0x202F ||
  c.toNat == 0x205F || c.toNat == 0x3000

/-- JS `content.trim()`: drop leading and trailing whitespace. -/
def jsTrim (s : String) : String :=
  String.mk (((s.data.dropWhile jsIsWhitespace).reverse.dropWhile jsIsWhitespace).reverse)

/-- The `retryCount` map of `MessageManager`. -/
abbrev RetryMap := List (String × Nat)

/-- `this.retryCount.get(key) || 0`. -/
def lookupCount (rc : RetryMap) (key : String) : Nat :=
  match rc.find? (fun p => p.1 == key) with
  | some p => p.2
  | none => 0

/-- `this.retryCount.set(key, n)`: replace the entry in place or append. -/
def setCount : RetryMap → String → Nat → RetryMap
  | [], key, n => [(key, n)]
  | p :: rest, key, n => if p.1 == key then (key, n) :: rest else p :: setCount rest key n

/-- `this.retryCount.delete(key)`. -/
def eraseCount : RetryMap → String → RetryMap
  | [], _ => []
  | p :: rest, key => if p.1 == key then rest else p :: eraseCount rest key

/-- `MessageManager.isRetryableError`, acting on the error message. -/
def isRetryableError (msg : String) : Bool :=
  jsIncludes msg "database is locked" ||
    jsIncludes msg "busy" ||
    jsIncludes msg "no response"

/-- `MessageManager.retry`.  The operation is the list of outcomes of its
successive attempts; the result is what the caller observes together with the
final `retryCount` map.  (A real operation always produces an outcome, so the
`[]` case is unreachable on lists at least as long as the attempt budget.) -/
def retryGo {T : Type} : List (Except String T) → RetryMap → String → Except String T × RetryMap
  | [], rc, _ => (Except.error "operation produced no outcome", rc)
  | outcome :: rest, rc, key =>
    match outcome with
    | Except.ok v => (Except.ok v, rc)
    | Except.error e =>
      let currentRetries := lookupCount rc key
      if currentRetries < MAX_RETRIES ∧ isRetryableError e = true then
        retryGo rest (setCount rc key (currentRetries + 1)) key
      else
        (Except.error e, eraseCount rc key)

/-- `MessageManager.validateMessageId`.  Identifiers are modelled as integers,
so the JS `Number.isInteger` check always passes. -/
def validateMessageId (messageId : Int) : Except String Unit :=
  if messageId ≤ 0 ∨ MAX_SAFE_INTEGER < messageId then
    Except.error "Invalid message ID: must be a positive integer within safe range"
  else Except.ok ()

/-- `MessageManager.validateTimestamps`. -/
def validateTimestamps (createdAt updatedAt : Int) : Except String Unit :=
  if createdAt ≤ 0 then
    Except.error "Invalid created_at timestamp: must be a positive integer"
  else if updatedAt ≤ 0 then
    Except.error "Invalid updated_at timestamp: must be a positive integer"
  else if updatedAt < createdAt then
    Except.error "updated_at timestamp cannot be earlier than created_at timestamp"
  else Except.ok ()

/-- `MessageManager.validateContent`.  The argument is typed as a string, so
the JS `typeof content !== 'string'` branch is unreachable. -/
def validateContent (content : String) : Except String Unit :=
  if (jsTrim content).length = 0 then
    Except.error "Content cannot be empty"
  else if MAX_CONTENT_LENGTH < content.utf8ByteSize then
    Except.error ("Content exceeds maximum length limit of " ++ toString MAX_CONTENT_LENGTH ++ " bytes")
  else Except.ok ()

/-- One stored row of the `messages` table (`rowid` exposed as `id`). -/
structure Row where
  id : Nat
  message_id : Int
  content : String
  created_at : Int
  updated_at : Int
deriving Repr, DecidableEq

/-- The `messages` table in storage order plus the rowid allocator. -/
structure DB where
  rows : List Row
  nextId : Nat
deriving Repr, DecidableEq

/-- Body of `MessageManager.messageExists`:
`SELECT 1 FROM messages WHERE message_id = ? LIMIT 1` is non-null. -/
def messageExists (db : DB) (messageId : Int) : Except String Bool := do
  let _ ← validateMessageId messageId
  pure (db.rows.any (fun r => r.message_id == messageId))

/-- Body of `MessageManager.getMessage`: first row matching `message_id`,
or `null` (here `none`). -/
def getMessage (db : DB) (messageId : Int) : Except String (Option Row) := do
  let _ ← validateMessageId messageId
  pure (db.rows.find? (fun r => r.message_id == messageId))

/-- Body of `MessageManager.getMessages`: every row in storage order. -/
def getMessages (db : DB) : List Row := db.rows

/-- Body of `MessageManager.getMessageCount`: `SELECT COUNT(*)`. -/
def getMessageCount (db : DB) : Nat := db.rows.length

/-- Body of `MessageManager.insertMessage`: validate id, content and
timestamps in that order, check non-existence, then insert in a transaction. -/
def insertMessage (db : DB) (messageId : Int) (content : String)
    (createdTimestamp updatedTimestamp : Int) : Except String Unit × DB :=
  match validateMessageId messageId with
  | Except.error e => (Except.error e, db)
  | Except.ok _ =>
    match validateContent content with
    | Except.error e => (Except.error e, db)
    | Except.ok _ =>
      match validateTimestamps createdTimestamp updatedTimestamp with
      | Except.error e => (Except.error e, db)
      | Except.ok _ =>
        match messageExists db messageId with
        | Except.error e => (Except.error e, db)
        | Except.ok true =>
          (Except.error ("Message with ID " ++ toString messageId ++ " already exists"), db)
        | Except.ok false =>
          let newRow : Row := { id := db.nextId, message_id := messageId, content := content, created_at := createdTimestamp, updated_at := updatedTimestamp }
          (Except.ok (), { rows := db.rows ++ [newRow], nextId := db.nextId + 1 })

/-- Body of `MessageManager.updateMessage`.  `Date.now()` is passed in as
`now`.  The `UPDATE` statement sets `content` and `updated_at` on every row
matching `message_id`; `result.changes === 0` raises not-found. -/
def updateMessage (db : DB) (messageId : Int) (content : String) (now : Int) :
    Except String Unit × DB :=
  match validateMessageId messageId with
  | Except.error e => (Except.error e, db)
  | Except.ok _ =>
    match validateContent content with
    | Except.error e => (Except.error e, db)
    | Except.ok _ =>
      let changes := db.rows.countP (fun r => r.message_id == messageId)
      if changes = 0 then
        (Except.error ("Message with ID " ++ toString messageId ++ " not found"), db)
      else
        (Except.ok (),
          { db with rows := db.rows.map (fun r =>
              if r.message_id == messageId then
                { r with content := content, updated_at := now }
              else r) })

/-- Body of `MessageManager.deleteMessage`:
`DELETE FROM messages WHERE message_id = ?`; zero changes raises not-found. -/
def deleteMessage (db : DB) (messageId : Int) : Except String Unit × DB :=
  match validateMessageId messageId with
  | Except.error e => (Except.error e, db)
  | Except.ok _ =>
    let remaining := db.rows.filter (fun r => !(r.message_id == messageId))
    if db.rows.length - remaining.length = 0 then
      (Except.error "Message not found", db)
    else
      (Except.ok (), { db with rows := remaining })

/-!
Helper lemmas shared by the claim theorems.
-/

/-- `find?` skips a prefix in which no element satisfies the predicate. -/
theorem find?_append_left_none {α : Type} (p : α → Bool) (l1 l2 : List α)
    (h : l1.any p = false) : (l1 ++ l2).find? p = l2.find? p := by
  induction l1 with
  | nil => rfl
  | cons a as ih =>
    simp only [List.any_cons, Bool.or_eq_false_iff] at h
    simp [List.find?_cons, h.1, ih h.2]

/-- On a valid identifier, `messageExists` is the existence check on the rows. -/
theorem messageExists_ok (db : DB) (m : Int) (hv : validateMessageId m = Except.ok ()) :
    messageExists db m = Except.ok (db.rows.any (fun r => r.message_id == m)) := by
  simp [messageExists, hv]

/-- Inversion of a successful `insertMessage`: all validations passed, no row
with the identifier existed, and the new row was appended. -/
theorem insertMessage_ok_elim (db db1 : DB) (m : Int) (c : String) (cr up : Int)
    (h : insertMessage db m c cr up = (Except.ok (), db1)) :
    validateMessageId m = Except.ok () ∧
    validateContent c = Except.ok () ∧
    validateTimestamps cr up = Except.ok () ∧
    db.rows.any (fun r => r.message_id == m) = false ∧
    db1 = { rows := db.rows ++ [{ id := db.nextId, message_id := m, content := c, created_at := cr, updated_at := up }], nextId := db.nextId + 1 } := by
  unfold insertMessage at h
  cases hv : validateMessageId m with
  | error e => rw [hv] at h; simp at h
  | ok u =>
    cases u
    rw [hv] at h
    cases hc : validateContent c with
    | error e => rw [hc] at h; simp at h
    | ok u2 =>
      cases u2
      rw [hc] at h
      cases ht : validateTimestamps cr up with
      | error e => rw [ht] at h; simp at h
      | ok u3 =>
        cases u3
        rw [ht] at h
        rw [messageExists_ok db m hv] at h
        cases hex : db.rows.any (fun r => r.message_id == m) with
        | true => rw [hex] at h; simp at h
        | false =>
          rw [hex] at h
          rw [Prod.mk.injEq] at h
          exact ⟨rfl, rfl, rfl, rfl, h.2.symm⟩

/-- Inversion of a successful `updateMessage`: validations passed, at least one
row matched, and the matching rows got the new content and `updated_at`. -/
theorem updateMessage_ok_elim (db db2 : DB) (m now : Int) (c : String)
    (h : updateMessage db m c now = (Except.ok (), db2)) :
    validateMessageId m = Except.ok () ∧ validateContent c = Except.ok () ∧
    db.rows.countP (fun r => r.message_id == m) ≠ 0 ∧
    db2 = { db with rows := db.rows.map (fun r => if r.message_id == m then { r with content := c, updated_at := now } else r) } := by
  unfold updateMessage at h
  cases hv : validateMessageId m with
  | error e => rw [hv] at h; simp at h
  | ok u =>
    cases u
    rw [hv] at h
    cases hc : validateContent c with
    | error e => rw [hc] at h; simp at h
    | ok u2 =>
      cases u2
      rw [hc] at h
      by_cases hch : db.rows.countP (fun r => r.message_id == m) = 0
      · rw [if_pos hch] at h; simp at h
      · rw [if_neg hch] at h
        rw [Prod.mk.injEq] at h
        exact ⟨rfl, rfl, hch, h.2.symm⟩

/-!
Claim theorems.
-/

/-- Claim C1 (refuted, code bug): the spec says the per-key attempt counter is
removed on any success, but `retry` only deletes the key on the throwing path.
After one retryable "database is locked" failure followed by a success, the
call returns successfully yet the counter for the key is still in the map with
value 1, so a later invocation with the same key does not start with a fresh
retry budget. -/
theorem retry_success_leaves_counter :
    retryGo [Except.error "database is locked", Except.ok (0 : Nat)] [] "k" =
      (Except.ok 0, [("k", 1)]) ∧
    lookupCount (retryGo [Except.error "database is locked", Except.ok (0 : Nat)] [] "k").2 "k" = 1 :=
  ⟨rfl, rfl⟩

/-- Claim C2 (refuted, code bug): `updated_at >= created_at` is supposed to
hold after every operation, but `updateMessage` overwrites `updated_at` with
the current clock without comparing it to `created_at`.  Inserting a row with
the valid future timestamp pair `(100, 100)` and then updating it at clock
time 50 succeeds and leaves the row with `updated_at = 50 < created_at = 100`. -/
theorem update_breaks_timestamp_invariant :
    insertMessage { rows := [], nextId := 1 } 1 "hello" 100 100 =
      (Except.ok (), { rows := [{ id := 1, message_id := 1, content := "hello", created_at := 100, updated_at := 100 }], nextId := 2 }) ∧
    updateMessage { rows := [{ id := 1, message_id := 1, content := "hello", created_at := 100, updated_at := 100 }], nextId := 2 } 1 "world" 50 =
      (Except.ok (), { rows := [{ id := 1, message_id := 1, content := "world", created_at := 100, updated_at := 50 }], nextId := 2 }) ∧
    ∀ r ∈ ({ rows := [{ id := 1, message_id := 1, content := "world", created_at := 100, updated_at := 50 }], nextId := 2 } : DB).rows,
      r.updated_at < r.created_at :=
  ⟨rfl, rfl, by decide⟩

/-- Claim C3 (confirmed): with a fresh retry budget, an operation that fails
twice with a "database is locked" error and succeeds on the third attempt
returns that success to the caller; four consecutive such failures exhaust the
budget (`MAX_RETRIES = 3` retries after the first attempt) and propagate the
last error. -/
theorem retry_locked_policy (T : Type) (v : T) (e1 e2 e3 e4 key : String)
    (h1 : jsIncludes e1 "database is locked" = true)
    (h2 : jsIncludes e2 "database is locked" = true)
    (h3 : jsIncludes e3 "database is locked" = true)
    (h4 : jsIncludes e4 "database is locked" = true) :
    retryGo [Except.error e1, Except.error e2, Except.ok v] [] key = (Except.ok v, [(key, 2)]) ∧
    retryGo ([Except.error e1, Except.error e2, Except.error e3, Except.error e4] :
        List (Except String T)) [] key = (Except.error e4, []) := by
  have r1 : isRetryableError e1 = true := by simp [isRetryableError, h1]
  have r2 : isRetryableError e2 = true := by simp [isRetryableError, h2]
  have r3 : isRetryableError e3 = true := by simp [isRetryableError, h3]
  have r4 : isRetryableError e4 = true := by simp [isRetryableError, h4]
  constructor <;>
    simp [retryGo, lookupCount, setCount, eraseCount, MAX_RETRIES, r1, r2, r3, r4, List.find?]

theorem retry_locked_policy_witness :
    retryGo [Except.error "database is locked", Except.error "database is locked",
      Except.ok (0 : Nat)] [] "insertMessage_1" = (Except.ok 0, [("insertMessage_1", 2)]) ∧
    retryGo [Except.error "database is locked", Except.error "database is locked",
      Except.error "database is locked", Except.error "database is locked"]
      ([] : RetryMap) "insertMessage_1" =
      ((Except.error "database is locked" : Except String Nat), []) :=
  retry_locked_policy Nat 0 "database is locked" "database is locked" "database is locked"
    "database is locked" "insertMessage_1" rfl rfl rfl rfl

/-- Claim C4 (confirmed): an error whose message contains none of
"database is locked", "busy" and "no response" is not retried: whatever the
current counter and the remaining attempts, it is rethrown at its first
occurrence and the per-key counter entry is deleted. -/
theorem nonretryable_rethrown_immediately (T : Type) (e : String)
    (rest : List (Except String T)) (rc : RetryMap) (key : String)
    (h1 : jsIncludes e "database is locked" = false)
    (h2 : jsIncludes e "busy" = false)
    (h3 : jsIncludes e "no response" = false) :
    retryGo (Except.error e :: rest) rc key = (Except.error e, eraseCount rc key) := by
  have hr : isRetryableError e = false := by simp [isRetryableError, h1, h2, h3]
  simp [retryGo, hr]

theorem nonretryable_rethrown_immediately_witness :
    retryGo [Except.error "Message not found", Except.ok (0 : Nat)] [("deleteMessage_5", 1)]
      "deleteMessage_5" = (Except.error "Message not found", []) :=
  nonretryable_rethrown_immediately Nat "Message not found" [Except.ok 0]
    [("deleteMessage_5", 1)] "deleteMessage_5" rfl rfl rfl

/-- Claim C5 (confirmed): after a successful insert of `message_id = m`, a
second insert with the same identifier (and any content and timestamps that
pass validation) fails with the duplicate error produced by the non-existence
check, and the state — in particular the previously stored row — is returned
unmodified. -/
theorem insert_duplicate_conflict (db db1 : DB) (m cr up cr2 up2 : Int) (c c2 : String)
    (hins : insertMessage db m c cr up = (Except.ok (), db1))
    (hc2 : validateContent c2 = Except.ok ())
    (ht2 : validateTimestamps cr2 up2 = Except.ok ()) :
    insertMessage db1 m c2 cr2 up2 =
      (Except.error ("Message with ID " ++ toString m ++ " already exists"), db1) := by
  obtain ⟨hv, hc, ht, hex, hdb1⟩ := insertMessage_ok_elim db db1 m c cr up hins
  have hex1 : db1.rows.any (fun r => r.message_id == m) = true := by
    subst hdb1
    simp
  have hme : messageExists db1 m = Except.ok true := by
    rw [messageExists_ok db1 m hv, hex1]
  unfold insertMessage
  rw [hv, hc2, ht2, hme]

theorem insert_duplicate_conflict_witness :
    insertMessage { rows := [{ id := 1, message_id := 1, content := "hello", created_at := 100, updated_at := 100 }], nextId := 2 } 1 "bye" 7 8 =
      (Except.error "Message with ID 1 already exists", { rows := [{ id := 1, message_id := 1, content := "hello", created_at := 100, updated_at := 100 }], nextId := 2 }) :=
  insert_duplicate_conflict { rows := [], nextId := 1 }
    { rows := [{ id := 1, message_id := 1, content := "hello", created_at := 100, updated_at := 100 }], nextId := 2 }
    1 100 100 7 8 "hello" "bye" rfl rfl rfl

/-- Claim C6 (confirmed): on a valid identifier matching no stored row,
`updateMessage` fails with its not-found error (zero rows affected) and
`deleteMessage` fails with its not-found error, and in both cases the state is
returned unchanged. -/
theorem update_delete_not_found (db : DB) (m now : Int) (c : String)
    (hv : validateMessageId m = Except.ok ())
    (hc : validateContent c = Except.ok ())
    (habs : ∀ r ∈ db.rows, ¬(r.message_id = m)) :
    updateMessage db m c now = (Except.error ("Message with ID " ++ toString m ++ " not found"), db) ∧
    deleteMessage db m = (Except.error "Message not found", db) := by
  have hcount : db.rows.countP (fun r => r.message_id == m) = 0 := by
    rw [List.countP_eq_zero]
    intro a ha
    simp [habs a ha]
  have hfilter : db.rows.filter (fun r => !(r.message_id == m)) = db.rows := by
    rw [List.filter_eq_self]
    intro a ha
    simp [habs a ha]
  constructor
  · unfold updateMessage
    rw [hv, hc, if_pos hcount]
  · unfold deleteMessage
    rw [hv]
    simp [hfilter]

theorem update_delete_not_found_witness :
    updateMessage { rows := [{ id := 1, message_id := 2, content := "a", created_at := 1, updated_at := 1 }], nextId := 2 } 5 "x" 9 =
      (Except.error "Message with ID 5 not found", { rows := [{ id := 1, message_id := 2, content := "a", created_at := 1, updated_at := 1 }], nextId := 2 }) ∧
    deleteMessage { rows := [{ id := 1, message_id := 2, content := "a", created_at := 1, updated_at := 1 }], nextId := 2 } 5 =
      (Except.error "Message not found", { rows := [{ id := 1, message_id := 2, content := "a", created_at := 1, updated_at := 1 }], nextId := 2 }) :=
  update_delete_not_found { rows := [{ id := 1, message_id := 2, content := "a", created_at := 1, updated_at := 1 }], nextId := 2 }
    5 9 "x" rfl rfl (by decide)

/-- Claim C7 (confirmed): after a successful `insertMessage m "hello" t1 t1`,
`getMessage m` returns a row with `message_id = m`, `content = "hello"`,
`created_at = t1` and `updated_at = t1`. -/
theorem insert_get_roundtrip (db db1 : DB) (m t1 : Int)
    (hins : insertMessage db m "hello" t1 t1 = (Except.ok (), db1)) :
    ∃ r : Row, getMessage db1 m = Except.ok (some r) ∧
      r.message_id = m ∧ r.content = "hello" ∧ r.created_at = t1 ∧ r.updated_at = t1 := by
  obtain ⟨hv, hc, ht, hex, hdb1⟩ := insertMessage_ok_elim db db1 m "hello" t1 t1 hins
  refine ⟨{ id := db.nextId, message_id := m, content := "hello", created_at := t1, updated_at := t1 }, ?_, rfl, rfl, rfl, rfl⟩
  subst hdb1
  simp only [getMessage, hv]
  rw [find?_append_left_none _ _ _ hex]
  simp [List.find?_cons, Except.bind]

theorem insert_get_roundtrip_witness :
    ∃ r : Row, getMessage { rows := [{ id := 1, message_id := 7, content := "hello", created_at := 42, updated_at := 42 }], nextId := 2 } 7 = Except.ok (some r) ∧
      r.message_id = 7 ∧ r.content = "hello" ∧ r.created_at = 42 ∧ r.updated_at = 42 :=
  insert_get_roundtrip { rows := [], nextId := 1 }
    { rows := [{ id := 1, message_id := 7, content := "hello", created_at := 42, updated_at := 42 }], nextId := 2 } 7 42 rfl

/-- Claim C8 (confirmed): on a valid identifier, content that is empty after
trimming makes both `insertMessage` and `updateMessage` fail with the
"Content cannot be empty" error, and content that is nonempty after trimming
but exceeds 1,000,000 UTF-8 bytes makes both fail with the oversize error; in
every case the state is returned unchanged, so no row is inserted or changed.
(A string that is both whitespace-only and oversized is reported as empty,
because the trim check runs first.) -/
theorem content_validation_rejects (db : DB) (m cr up now : Int) (c : String)
    (hv : validateMessageId m = Except.ok ()) :
    ((jsTrim c).length = 0 →
      insertMessage db m c cr up = (Except.error "Content cannot be empty", db) ∧
      updateMessage db m c now = (Except.error "Content cannot be empty", db)) ∧
    ((jsTrim c).length ≠ 0 → MAX_CONTENT_LENGTH < c.utf8ByteSize →
      insertMessage db m c cr up = (Except.error ("Content exceeds maximum length limit of " ++ toString MAX_CONTENT_LENGTH ++ " bytes"), db) ∧
      updateMessage db m c now = (Except.error ("Content exceeds maximum length limit of " ++ toString MAX_CONTENT_LENGTH ++ " bytes"), db)) := by
  constructor
  · intro hempty
    have hvc : validateContent c = Except.error "Content cannot be empty" := by
      unfold validateContent
      rw [if_pos hempty]
    constructor
    · unfold insertMessage; rw [hv, hvc]
    · unfold updateMessage; rw [hv, hvc]
  · intro hne hbig
    have hvc : validateContent c = Except.error ("Content exceeds maximum length limit of " ++ toString MAX_CONTENT_LENGTH ++ " bytes") := by
      unfold validateContent
      rw [if_neg hne, if_pos hbig]
    constructor
    · unfold insertMessage; rw [hv, hvc]
    · unfold updateMessage; rw [hv, hvc]

theorem content_validation_rejects_witness :
    insertMessage { rows := [], nextId := 1 } 1 "  " 5 5 = (Except.error "Content cannot be empty", { rows := [], nextId := 1 }) ∧
    updateMessage { rows := [], nextId := 1 } 1 "  " 9 = (Except.error "Content cannot be empty", { rows := [], nextId := 1 }) :=
  (content_validation_rejects { rows := [], nextId := 1 } 1 5 5 9 "  " rfl).1 rfl

/-- Claim C9 (refutation of the original statement): a successful
`updateMessage` on a row with `created_at = t1 = 100`, executed at clock time
50, sets `updated_at = 50`, which is not `>= t1`; the claim holds only when
the update happens no earlier than `t1`. -/
theorem update_sets_updatedAt_below_t1 :
    updateMessage { rows := [{ id := 1, message_id := 1, content := "hello", created_at := 100, updated_at := 100 }], nextId := 2 } 1 "world" 50 =
      (Except.ok (), { rows := [{ id := 1, message_id := 1, content := "world", created_at := 100, updated_at := 50 }], nextId := 2 }) ∧
    ¬((100 : Int) ≤ 50) :=
  ⟨rfl, by decide⟩

/-- Claim C9 (amended): on a valid identifier with at least one matching row,
all of whose matching rows have `created_at = t1`, `updateMessage m "world"`
at clock time `now` rewrites exactly the matching rows to have
`content = "world"` and `updated_at = now` while every other row and every
other field (including `created_at = t1`) is unchanged; whenever the update
happens no earlier than `t1` (`t1 ≤ now`), the updated rows satisfy
`updated_at ≥ t1`. -/
theorem update_frame_amended (db : DB) (m now t1 : Int)
    (hv : validateMessageId m = Except.ok ())
    (hex : ∃ r ∈ db.rows, r.message_id = m)
    (hcr : ∀ r ∈ db.rows, r.message_id = m → r.created_at = t1)
    (hnow : t1 ≤ now) :
    updateMessage db m "world" now =
      (Except.ok (), { db with rows := db.rows.map (fun r =>
        if r.message_id == m then { r with content := "world", updated_at := now } else r) }) ∧
    ∀ r ∈ (updateMessage db m "world" now).2.rows,
      r.message_id = m → r.content = "world" ∧ r.created_at = t1 ∧ t1 ≤ r.updated_at := by
  have hcw : validateContent "world" = Except.ok () := rfl
  have hch : db.rows.countP (fun r => r.message_id == m) ≠ 0 := by
    rw [Ne, List.countP_eq_zero]
    intro hall
    obtain ⟨r, hr, hrm⟩ := hex
    exact hall r hr (by simp [hrm])
  have heq : updateMessage db m "world" now =
      (Except.ok (), { db with rows := db.rows.map (fun r =>
        if r.message_id == m then { r with content := "world", updated_at := now } else r) }) := by
    unfold updateMessage
    rw [hv, hcw, if_neg hch]
  refine ⟨heq, ?_⟩
  rw [heq]
  intro r hr hrm
  obtain ⟨r0, hr0, hmap⟩ := List.mem_map.mp hr
  by_cases h0 : r0.message_id = m
  · rw [if_pos (by simp [h0])] at hmap
    subst hmap
    exact ⟨rfl, hcr r0 hr0 h0, hnow.trans (le_refl now)⟩
  · rw [if_neg (by simp [h0])] at hmap
    subst hmap
    exact absurd hrm h0

theorem update_frame_amended_witness :
    updateMessage { rows := [{ id := 1, message_id := 1, content := "hello", created_at := 100, updated_at := 100 }], nextId := 2 } 1 "world" 150 =
      (Except.ok (), { rows := [{ id := 1, message_id := 1, content := "world", created_at := 100, updated_at := 150 }], nextId := 2 }) ∧
    ∀ r ∈ (updateMessage { rows := [{ id := 1, message_id := 1, content := "hello", created_at := 100, updated_at := 100 }], nextId := 2 } 1 "world" 150).2.rows,
      r.message_id = 1 → r.content = "world" ∧ r.created_at = 100 ∧ (100 : Int) ≤ r.updated_at :=
  update_frame_amended { rows := [{ id := 1, message_id := 1, content := "hello", created_at := 100, updated_at := 100 }], nextId := 2 }
    1 150 100 rfl (by decide) (by decide) (by decide)

/-- Claim C10 (confirmed): `validateContent` accepts exactly the strings that
are nonempty after trimming and whose untrimmed UTF-8 byte length is within
the limit, and both `insertMessage` and `updateMessage` store the caller's
string verbatim: after a successful insert of content `c` followed by a
successful update to content `c2`, `getMessage` returns `c` before the update
and `c2` after it, surrounding whitespace included. -/
theorem content_stored_verbatim (db db1 db2 : DB) (m cr up now : Int) (c c2 : String)
    (hins : insertMessage db m c cr up = (Except.ok (), db1))
    (hupd : updateMessage db1 m c2 now = (Except.ok (), db2)) :
    (∀ s : String, validateContent s = Except.ok () ↔
      ((jsTrim s).length ≠ 0 ∧ s.utf8ByteSize ≤ MAX_CONTENT_LENGTH)) ∧
    (∃ r : Row, getMessage db1 m = Except.ok (some r) ∧ r.content = c) ∧
    (∃ r : Row, getMessage db2 m = Except.ok (some r) ∧ r.content = c2) := by
  obtain ⟨hv, hc, ht, hex, hdb1⟩ := insertMessage_ok_elim db db1 m c cr up hins
  obtain ⟨hv2, hc2, hch, hdb2⟩ := updateMessage_ok_elim db1 db2 m now c2 hupd
  refine ⟨?_, ?_, ?_⟩
  · intro s
    unfold validateContent
    by_cases h1 : (jsTrim s).length = 0
    · rw [if_pos h1]
      simp [h1]
    · rw [if_neg h1]
      by_cases h2 : MAX_CONTENT_LENGTH < s.utf8ByteSize
      · rw [if_pos h2]
        simp [h1, h2]
      · rw [if_neg h2]
        simp [h1]
        omega
  · refine ⟨{ id := db.nextId, message_id := m, content := c, created_at := cr, updated_at := up }, ?_, rfl⟩
    subst hdb1
    simp only [getMessage, hv]
    rw [find?_append_left_none _ _ _ hex]
    simp [List.find?_cons, Except.bind]
  · refine ⟨{ id := db.nextId, message_id := m, content := c2, created_at := cr, updated_at := now }, ?_, rfl⟩
    subst hdb2
    subst hdb1
    simp only [getMessage, hv]
    rw [List.map_append]
    rw [find?_append_left_none]
    · simp [List.find?_cons, Except.bind]
    · rw [List.any_map]
      rw [show ((fun r : Row => r.message_id == m) ∘ (fun r : Row =>
          if r.message_id == m then { r with content := c2, updated_at := now } else r)) =
          (fun r : Row => r.message_id == m) from ?_]
      · exact hex
      · funext r
        by_cases h0 : r.message_id == m
        · simp only [Function.comp, if_pos h0]
        · simp only [Function.comp, if_neg h0]

theorem content_stored_verbatim_witness :
    (∃ r : Row, getMessage { rows := [{ id := 1, message_id := 2, content := "  spaced  ", created_at := 10, updated_at := 10 }], nextId := 2 } 2 =
      Except.ok (some r) ∧ r.content = "  spaced  ") ∧
    (∃ r : Row, getMessage { rows := [{ id := 1, message_id := 2, content := " w2 ", created_at := 10, updated_at := 20 }], nextId := 2 } 2 =
      Except.ok (some r) ∧ r.content = " w2 ") :=
  ⟨(content_stored_verbatim { rows := [], nextId := 1 }
      { rows := [{ id := 1, message_id := 2, content := "  spaced  ", created_at := 10, updated_at := 10 }], nextId := 2 }
      { rows := [{ id := 1, message_id := 2, content := " w2 ", created_at := 10, updated_at := 20 }], nextId := 2 }
      2 10 10 20 "  spaced  " " w2 " rfl rfl).2.1,
   (content_stored_verbatim { rows := [], nextId := 1 }
      { rows := [{ id := 1, message_id := 2, content := "  spaced  ", created_at := 10, updated_at := 10 }], nextId := 2 }
      { rows := [{ id := 1, message_id := 2, content := " w2 ", created_at := 10, updated_at := 20 }], nextId := 2 }
      2 10 10 20 "  spaced  " " w2 " rfl rfl).2.2⟩

end Sqlite
